import Mathlib

/-!
Verification of the contact-payment lifecycle of the estate-explore
rental-marketplace application: payment initiation (supabase/functions/
mpesa-payment/index.ts), provider callback reconciliation
(supabase/functions/mpesa-callback/index.ts), the entitlement SQL
functions (migration 20260116055234), the expires_at column default
(migration 20250806082555, step 1), the expiry-reminder job
(send-expiry-reminders function) and the client-side status polling
(src/components/PaymentModal.tsx).

Time is modelled as an integer count of milliseconds on the local clock,
so that one calendar day is the half-open interval of length 86400000
starting at a multiple of 86400000.  Database rows are Lean structures,
a table is a list of rows, and each serverless function is a pure Lean
function from its inputs (request fields, environment, provider
responses) and the current table state to its response and the new
table state.
-/

namespace EstateExplore

/-- Milliseconds in one day. -/
def dayMs : Int := 86400000

/-- An interval of n days, as used by the SQL INTERVAL in the migrations. -/
def days (n : Int) : Int := n * dayMs

/-- A row of the public.contact_payments table (migration creating the
table: id, user_id, property_id, amount in cents, phone_number,
transaction_id, checkout_request_id, payment_status defaulting to
pending, created_at, updated_at; migration 20250806082555 adds the
nullable expires_at column). -/
structure ContactPayment where
  id : Nat
  user_id : String
  property_id : String
  amount : Int
  phone_number : String
  transaction_id : Option String
  checkout_request_id : Option String
  payment_status : String
  created_at : Int
  updated_at : Int
  expires_at : Option Int
deriving DecidableEq, Repr

/-- The SQL condition (expires_at IS NULL OR expires_at > now()) used by
both entitlement functions of migration 20260116055234. -/
def expiresOk (now : Int) (cp : ContactPayment) : Bool :=
  match cp.expires_at with
  | none => true
  | some e => decide (now < e)

/-- public.has_paid_for_contact_access(p_property_id, p_user_id) from
migration 20260116055234: EXISTS a contact_payments row for the property
and user with payment_status completed and expires_at NULL or in the
future. -/
def has_paid_for_contact_access (db : List ContactPayment) (now : Int)
    (p_property_id p_user_id : String) : Bool :=
  db.any fun cp =>
    cp.property_id == p_property_id && cp.user_id == p_user_id &&
      cp.payment_status == "completed" && expiresOk now cp

/-- A row of the public.properties table, with exactly the columns listed
by the RETURNS TABLE of get_properties_with_conditional_phone in
migration 20260116055234. -/
structure PropertyRow where
  id : String
  title : String
  property_type : String
  location : String
  rent_amount : Rat
  bedrooms : Option Int
  bathrooms : Option Int
  size_sqft : Option Int
  description : Option String
  image_url : Option String
  image_urls : List String
  status : String
  user_id : String
  created_at : Int
  updated_at : Int
  latitude : Option Rat
  longitude : Option Rat
  contact : Option String
  phone : Option String
deriving DecidableEq, Repr

/-- The EXISTS subquery of the CASE expression in
get_properties_with_conditional_phone: a completed, unexpired
contact_payments row of the calling user for the given property. -/
def paidExists (db : List ContactPayment) (now : Int) (uid propId : String) : Bool :=
  db.any fun cp =>
    cp.property_id == propId && cp.user_id == uid &&
      cp.payment_status == "completed" && expiresOk now cp

/-- The CASE expression of get_properties_with_conditional_phone:
auth.uid() IS NOT NULL AND EXISTS (...) gives p.phone, anything else
gives NULL. -/
def conditionalPhone (db : List ContactPayment) (now : Int)
    (auth_uid : Option String) (p : PropertyRow) : Option String :=
  match auth_uid with
  | some uid => if paidExists db now uid p.id then p.phone else none
  | none => none

/-- public.get_properties_with_conditional_phone() from migration
20260116055234: every properties row verbatim, except that the phone
column is replaced by the CASE expression. -/
def get_properties_with_conditional_phone (props : List PropertyRow)
    (db : List ContactPayment) (auth_uid : Option String) (now : Int) :
    List PropertyRow :=
  props.map fun p => { p with phone := conditionalPhone db now auth_uid p }

/-- A property row with its phone column removed; two rows agree on every
column but phone exactly when their erasures are equal. -/
def erasePhone (p : PropertyRow) : PropertyRow := { p with phone := none }

/-! ### Phone-number handling of the mpesa-payment function -/

/-- cleanPhone in mpesa-payment/index.ts: phoneNumber.replace(/\D/g, ""),
i.e. keep only the decimal digits. -/
def cleanPhone (s : String) : List Char := s.toList.filter Char.isDigit

/-- The anchored regular expression (254|0)?7[0-9]\x7b8\x7d that
mpesa-payment/index.ts matches the cleaned phone number against. -/
def kenyanPhoneMatch (s : List Char) : Bool :=
  let tail8 (l : List Char) : Bool := l.length == 8 && l.all Char.isDigit
  match s with
  | '7' :: rest => tail8 rest
  | '0' :: '7' :: rest => tail8 rest
  | '2' :: '5' :: '4' :: '7' :: rest => tail8 rest
  | _ => false

/-- cleanPhone.startsWith("254") in mpesa-payment/index.ts. -/
def startsWith254 (l : List Char) : Bool :=
  match l with
  | '2' :: '5' :: '4' :: _ => true
  | _ => false

/-- formattedPhone in mpesa-payment/index.ts: the cleaned number itself
when it starts with 254, otherwise "254" prepended to the cleaned number
with its first character removed. -/
def formatPhone (c : List Char) : String :=
  if startsWith254 c then String.mk c
  else String.mk ('2' :: '5' :: '4' :: c.drop 1)

/-! ### The mpesa-payment serverless function -/

/-- The body of the STK push response of the provider
(STKPushResponse interface in mpesa-payment/index.ts). -/
structure STKPushResponse where
  merchantRequestID : String
  checkoutRequestID : String
  responseCode : String
  responseDescription : String
  customerMessage : String
deriving DecidableEq, Repr

/-- The inputs of one execution of the mpesa-payment function: the
request (authorization header, body fields), the resolved user of the
bearer token, the configured environment values, the outcomes of the
provider authentication call and of the database insert, the parsed STK
push response, the id the database assigns to the inserted row, and the
current time. -/
structure PaymentEnv where
  authHeader : Option String
  authedUser : Option String
  propertyId : String
  amount : Int
  phoneNumber : String
  consumerKey : String
  consumerSecret : String
  mpesaAuthOk : Bool
  insertOk : Bool
  shortcode : String
  passkey : String
  stk : STKPushResponse
  newId : Nat
  now : Int
deriving DecidableEq, Repr

/-- The externally visible state-changing steps of the mpesa-payment
function, in execution order: the insert of the pending row, the STK
push request to the provider, and the follow-up update of the row. -/
inductive PayEvent where
  | insertPending (row : ContactPayment)
  | stkPush (partyA : String) (amount : Int)
  | updateCheckoutRequestId (rowId : Nat) (checkoutRequestId : String)
  | updateFailed (rowId : Nat)
deriving DecidableEq, Repr

/-- True exactly for the STK push event. -/
def isStkPush : PayEvent → Bool
  | .stkPush _ _ => true
  | _ => false

/-- The HTTP response of the mpesa-payment function together with the
resulting contact_payments table and the trace of performed steps. -/
structure PaymentResult where
  status : Nat
  success : Bool
  error : Option String
  message : Option String
  checkoutRequestId : Option String
  paymentId : Option Nat
  db : List ContactPayment
  events : List PayEvent
deriving DecidableEq, Repr

/-- The catch-all error response of mpesa-payment: HTTP 500 with body
success false and the message of the thrown error. -/
def errResponse (db : List ContactPayment) (events : List PayEvent)
    (msg : String) : PaymentResult :=
  { status := 500, success := false, error := some msg, message := none,
    checkoutRequestId := none, paymentId := none, db := db, events := events }

/-- The row inserted by mpesa-payment: user_id, property_id, amount
converted to cents, the formatted phone number, payment_status pending;
created_at, updated_at and expires_at take their column defaults, the
last being now() + INTERVAL 14 days from migration 20250806082555. -/
def newPendingPayment (env : PaymentEnv) (uid : String) : ContactPayment :=
  { id := env.newId
    user_id := uid
    property_id := env.propertyId
    amount := env.amount * 100
    phone_number := formatPhone (cleanPhone env.phoneNumber)
    transaction_id := none
    checkout_request_id := none
    payment_status := "pending"
    created_at := env.now
    updated_at := env.now
    expires_at := some (env.now + days 14) }

/-- One execution of the mpesa-payment function, following the source
order: authorization header check, user authentication, required-field
check (JavaScript falsiness of the three body fields), phone validation,
credential configuration check, provider authentication, insert of the
pending row, shortcode and passkey check, STK push, and the final branch
on ResponseCode with its row update. -/
def mpesaPayment (db : List ContactPayment) (env : PaymentEnv) : PaymentResult :=
  match env.authHeader with
  | none => errResponse db [] "No authorization header"
  | some _ =>
    match env.authedUser with
    | none => errResponse db [] "User not authenticated"
    | some uid =>
      if env.propertyId = "" ∨ env.amount = 0 ∨ env.phoneNumber = "" then
        errResponse db [] "Missing required fields: propertyId, amount, phoneNumber"
      else if ¬ kenyanPhoneMatch (cleanPhone env.phoneNumber) then
        errResponse db [] "Invalid phone number format. Use format: 0712345678"
      else if env.consumerKey = "" ∨ env.consumerSecret = "" then
        errResponse db [] "M-Pesa credentials are not configured. Please contact support."
      else if ¬ env.mpesaAuthOk then
        errResponse db [] "M-Pesa authentication failed. Please verify API credentials are correct."
      else if ¬ env.insertOk then
        errResponse db [] "Failed to create payment record"
      else
        let row := newPendingPayment env uid
        let db1 := db ++ [row]
        if env.shortcode = "" ∨ env.passkey = "" then
          errResponse db1 [.insertPending row]
            "M-Pesa payment configuration incomplete. Please contact support."
        else if env.stk.responseCode = "0" then
          { status := 200, success := true, error := none,
            message := some env.stk.customerMessage,
            checkoutRequestId := some env.stk.checkoutRequestID,
            paymentId := some env.newId,
            db := db1.map fun cp =>
              if cp.id == row.id then
                { cp with checkout_request_id := some env.stk.checkoutRequestID }
              else cp,
            events := [.insertPending row,
              .stkPush row.phone_number env.amount,
              .updateCheckoutRequestId row.id env.stk.checkoutRequestID] }
        else
          errResponse
            (db1.map fun cp =>
              if cp.id == row.id then { cp with payment_status := "failed" } else cp)
            [.insertPending row, .stkPush row.phone_number env.amount,
              .updateFailed row.id]
            (if env.stk.responseDescription = "" then "STK Push failed"
             else env.stk.responseDescription)

/-! ### The mpesa-callback serverless function -/

/-- One entry of CallbackMetadata.Item.  In the source the Value field is
an arbitrary JSON value; it is modelled as a string, and JavaScript
truthiness of the value is non-emptiness of that string. -/
structure CallbackItem where
  name : String
  value : String
deriving DecidableEq, Repr

/-- The Body.stkCallback of the provider callback
(CallbackData interface in mpesa-callback/index.ts). -/
structure StkCallback where
  merchantRequestID : String
  checkoutRequestID : String
  resultCode : Int
  resultDesc : String
  callbackMetadata : Option (List CallbackItem)
deriving DecidableEq, Repr

/-- The MpesaReceiptNumber extracted from the callback metadata:
metadata.find(item => item.Name === "MpesaReceiptNumber")?.Value. -/
def receiptNumber (cb : StkCallback) : Option String :=
  match cb.callbackMetadata with
  | some items => (items.find? fun it => it.name == "MpesaReceiptNumber").map CallbackItem.value
  | none => none

/-- The record lookup of mpesa-callback: all contact_payments rows whose
checkout_request_id equals the CheckoutRequestID of the callback. -/
def locatePayments (db : List ContactPayment) (cbid : String) : List ContactPayment :=
  db.filter fun cp => cp.checkout_request_id == some cbid

/-- The update written by mpesa-callback to the matched row: updated_at
refreshed; payment_status completed on ResultCode 0 and failed on any
other ResultCode; on success a truthy MpesaReceiptNumber from the
metadata is stored as transaction_id. -/
def callbackUpdate (now : Int) (cb : StkCallback) (p : ContactPayment) : ContactPayment :=
  if cb.resultCode = 0 then
    let p1 := { p with updated_at := now, payment_status := "completed" }
    match receiptNumber cb with
    | some v => if v = "" then p1 else { p1 with transaction_id := some v }
    | none => p1
  else
    { p with updated_at := now, payment_status := "failed" }

/-- One execution of the mpesa-callback function: locate the payment row
by CheckoutRequestID with .single(), answer 404 leaving the table
unchanged unless exactly one row matches, otherwise write the update to
the row with that id and answer 200. -/
def mpesaCallback (db : List ContactPayment) (now : Int) (cb : StkCallback) :
    List ContactPayment × Nat :=
  match locatePayments db cb.checkoutRequestID with
  | [p] => (db.map fun cp => if cp.id == p.id then callbackUpdate now cb cp else cp, 200)
  | _ => (db, 404)

/-! ### The send-expiry-reminders function -/

/-- twoDaysStart in send-expiry-reminders: the current local time moved
two days ahead and truncated to 00:00:00.000 of that day. -/
def twoDaysStart (now : Int) : Int := dayMs * ((now + 2 * dayMs) / dayMs)

/-- twoDaysEnd in send-expiry-reminders: 23:59:59.999 of the day two days
ahead. -/
def twoDaysEnd (now : Int) : Int := twoDaysStart now + dayMs - 1

/-- The expires_at window filter of the reminder query: gte twoDaysStart
and lte twoDaysEnd; a NULL expires_at satisfies neither SQL comparison. -/
def inReminderWindow (now : Int) (cp : ContactPayment) : Bool :=
  match cp.expires_at with
  | some e => decide (twoDaysStart now ≤ e) && decide (e ≤ twoDaysEnd now)
  | none => false

/-- The expiring-payments query of send-expiry-reminders: completed
payments whose expires_at lies in the two-day window. -/
def reminderQuery (db : List ContactPayment) (now : Int) : List ContactPayment :=
  db.filter fun cp => cp.payment_status == "completed" && inReminderWindow now cp

/-- The columns of public.profiles that the reminder job reads. -/
structure Profile where
  user_id : String
  email : Option String
  full_name : Option String
deriving DecidableEq, Repr

/-- One reminder email produced by the job. -/
structure Reminder where
  paymentId : Nat
  email : String
  propertyTitle : String
deriving DecidableEq, Repr

/-- The profiles lookup of the reminder loop: maybeSingle() on
user_id equality. -/
def findProfile (profiles : List Profile) (uid : String) : Option Profile :=
  profiles.find? fun pr => pr.user_id == uid

/-- The properties lookup of the reminder loop: maybeSingle() on
id equality. -/
def findProperty (props : List PropertyRow) (pid : String) : Option PropertyRow :=
  props.find? fun p => p.id == pid

/-- The guard profileError || !profile?.email of the reminder loop: the
email to send to, provided the profile exists and its email is truthy. -/
def profileEmail (profiles : List Profile) (uid : String) : Option String :=
  match findProfile profiles uid with
  | some pr =>
    match pr.email with
    | some e => if e = "" then none else some e
    | none => none
  | none => none

/-- The send loop of send-expiry-reminders: one email per expiring
payment whose user has a truthy profile email and whose property still
exists; every other expiring payment is skipped. -/
def sendReminders (db : List ContactPayment) (profiles : List Profile)
    (props : List PropertyRow) (now : Int) : List Reminder :=
  (reminderQuery db now).filterMap fun cp =>
    match profileEmail profiles cp.user_id with
    | none => none
    | some e =>
      match findProperty props cp.property_id with
      | none => none
      | some prop => some { paymentId := cp.id, email := e, propertyTitle := prop.title }

/-! ### Client-side polling (PaymentModal.tsx) -/

/-- Outcome of pollPaymentStatus in PaymentModal.tsx. -/
inductive PollOutcome where
  | success
  | failed
  | timeout
deriving DecidableEq, Repr

/-- checkStatus of pollPaymentStatus: read the payment_status of the row
(statusAt n is the status the n-th read observes), stop on completed or
failed, otherwise re-schedule while fewer than 60 attempts were made. -/
def pollAux (statusAt : Nat → String) (attempt : Nat) : Nat → PollOutcome
  | 0 => .timeout
  | fuel + 1 =>
    if statusAt attempt = "completed" then .success
    else if statusAt attempt = "failed" then .failed
    else if attempt < 60 then pollAux statusAt (attempt + 1) fuel
    else .timeout

/-- pollPaymentStatus in PaymentModal.tsx: up to maxAttempts = 60 reads
of the payment row from the browser that initiated the payment. -/
def pollPaymentStatus (statusAt : Nat → String) : PollOutcome :=
  pollAux statusAt 1 60

/-! ### Concrete example inputs -/

/-- A persisted payment awaiting its provider callback. -/
def cexPayment : ContactPayment :=
  { id := 1, user_id := "user-1", property_id := "prop-1", amount := 5000,
    phone_number := "254712345678", transaction_id := none,
    checkout_request_id := some "ws_CO_0001", payment_status := "pending",
    created_at := 0, updated_at := 0, expires_at := some (days 14) }

/-- A callback for cexPayment with a non-zero ResultCode whose metadata
nevertheless carries an MpesaReceiptNumber item. -/
def cexFailedCallback : StkCallback :=
  { merchantRequestID := "mr-1", checkoutRequestID := "ws_CO_0001",
    resultCode := 1032, resultDesc := "Request cancelled by user",
    callbackMetadata := some [{ name := "MpesaReceiptNumber", value := "RCPT123" }] }

/-- A successful callback for cexPayment carrying a receipt number. -/
def exSuccessCallback : StkCallback :=
  { merchantRequestID := "mr-2", checkoutRequestID := "ws_CO_0001",
    resultCode := 0, resultDesc := "The service request is processed successfully.",
    callbackMetadata := some [{ name := "Amount", value := "50" },
      { name := "MpesaReceiptNumber", value := "RCPT456" }] }

/-- A callback whose CheckoutRequestID matches no persisted payment. -/
def cexUnmatchedCallback : StkCallback :=
  { merchantRequestID := "mr-3", checkoutRequestID := "ws_CO_MISSING",
    resultCode := 0, resultDesc := "ok", callbackMetadata := none }

/-- An STK push response accepted by the provider. -/
def exStk : STKPushResponse :=
  { merchantRequestID := "mr-4", checkoutRequestID := "ws_CO_0002",
    responseCode := "0", responseDescription := "Success. Request accepted for processing",
    customerMessage := "Success. Request accepted for processing" }

/-- A fully configured, authenticated payment request. -/
def exPayEnv : PaymentEnv :=
  { authHeader := some "Bearer tok", authedUser := some "user-1",
    propertyId := "prop-1", amount := 50, phoneNumber := "0712345678",
    consumerKey := "ck", consumerSecret := "cs", mpesaAuthOk := true,
    insertOk := true, shortcode := "174379", passkey := "pk",
    stk := exStk, newId := 7, now := 1000 }

/-- An STK push rejected with a non-zero ResponseCode and an empty
ResponseDescription. -/
def cexEmptyDescStk : STKPushResponse :=
  { merchantRequestID := "mr-5", checkoutRequestID := "ws_CO_0004",
    responseCode := "1", responseDescription := "", customerMessage := "" }

/-- exPayEnv with the provider rejecting the push and returning an empty
ResponseDescription. -/
def cexEmptyDescEnv : PaymentEnv := { exPayEnv with stk := cexEmptyDescStk }

/-- exPayEnv with the provider rejecting the push with a description. -/
def exRejectedEnv : PaymentEnv :=
  { exPayEnv with stk :=
    { merchantRequestID := "mr-6", checkoutRequestID := "ws_CO_0005",
      responseCode := "1", responseDescription := "The balance is insufficient for the transaction",
      customerMessage := "" } }

/-- A pending payment whose expires_at lies inside the two-day reminder
window, to probe whether the reminder job ever re-checks it. -/
def cexPendingInWindow : ContactPayment :=
  { id := 3, user_id := "user-1", property_id := "prop-1", amount := 5000,
    phone_number := "254712345678", transaction_id := none,
    checkout_request_id := some "ws_CO_0003", payment_status := "pending",
    created_at := 0, updated_at := 0, expires_at := some (days 2) }

/-- A completed payment expiring inside the two-day reminder window. -/
def exExpiringPayment : ContactPayment :=
  { id := 4, user_id := "user-1", property_id := "prop-1", amount := 5000,
    phone_number := "254712345678", transaction_id := some "RCPT456",
    checkout_request_id := some "ws_CO_0002", payment_status := "completed",
    created_at := 0, updated_at := 0, expires_at := some (days 2 + 5000) }

/-- The profile of user-1. -/
def exProfile : Profile :=
  { user_id := "user-1", email := some "tenant@example.com", full_name := some "Tenant One" }

/-- The listed property prop-1. -/
def exProp : PropertyRow :=
  { id := "prop-1", title := "Two bedroom in Kilimani", property_type := "apartment",
    location := "Kilimani, Nairobi", rent_amount := 45000, bedrooms := some 2,
    bathrooms := some 1, size_sqft := some 900, description := some "Spacious unit",
    image_url := none, image_urls := [], status := "available",
    user_id := "landlord-1", created_at := 0, updated_at := 0,
    latitude := none, longitude := none, contact := some "Landlord One",
    phone := some "0722000000" }

/-- cexPayment after a successful callback marked it completed. -/
def cexCompletedPayment : ContactPayment :=
  { cexPayment with payment_status := "completed" }

/-- A completed, unexpired payment of user-1 for prop-1, as seen by the
conditional-phone view. -/
def exPaidRow : ContactPayment :=
  { id := 5, user_id := "user-1", property_id := "prop-1", amount := 5000,
    phone_number := "254712345678", transaction_id := some "RCPT456",
    checkout_request_id := some "ws_CO_0002", payment_status := "completed",
    created_at := 0, updated_at := 0, expires_at := some (days 14) }

/-! ### Helper lemmas -/

/-- The SQL expiry condition holds exactly when expires_at is NULL or
strictly in the future. -/
theorem expiresOk_iff (now : Int) (cp : ContactPayment) :
    expiresOk now cp = true ↔
      (cp.expires_at = none ∨ ∃ e, cp.expires_at = some e ∧ now < e) := by
  cases h : cp.expires_at with
  | none => simp [expiresOk, h]
  | some e => simp [expiresOk, h]

/-- The status the callback writes depends only on the ResultCode of the
callback, never on the current fields of the record. -/
theorem callbackUpdate_status (now : Int) (cb : StkCallback) (p : ContactPayment) :
    (callbackUpdate now cb p).payment_status =
      if cb.resultCode = 0 then "completed" else "failed" := by
  by_cases h : cb.resultCode = 0
  · cases hr : receiptNumber cb with
    | none => simp [callbackUpdate, h, hr]
    | some v => by_cases hv : v = "" <;> simp [callbackUpdate, h, hr, hv]
  · simp [callbackUpdate, h]

/-- When the lookup matches exactly one record, the callback answers 200
and the updated record is in the resulting table. -/
theorem callbackUpdate_mem (db : List ContactPayment) (now : Int) (cb : StkCallback)
    (p : ContactPayment) (hp : locatePayments db cb.checkoutRequestID = [p]) :
    (mpesaCallback db now cb).2 = 200 ∧
      callbackUpdate now cb p ∈ (mpesaCallback db now cb).1 := by
  have hpd : p ∈ db := by
    have hm : p ∈ locatePayments db cb.checkoutRequestID := by
      rw [hp]; exact List.mem_singleton_self p
    exact List.mem_of_mem_filter hm
  refine ⟨by simp [mpesaCallback, hp], ?_⟩
  have heq : (fun cp => if cp.id == p.id then callbackUpdate now cb cp else cp) p
      = callbackUpdate now cb p := by simp
  simp only [mpesaCallback, hp]
  exact heq ▸ List.mem_map_of_mem _ hpd

/-! ### C1 -/

/-- C1: has_paid_for_contact_access is true exactly when some
contact_payments row of the user for the property is completed with a
NULL or future expires_at; a freshly inserted payment row defaults its
expires_at to 14 days after its creation time, so the completed payment
grants access exactly until 14 days after creation. -/
theorem C1_time_limited_entitlement (db : List ContactPayment) (now : Int)
    (pid uid : String) (env : PaymentEnv) (u : String) :
    (has_paid_for_contact_access db now pid uid = true ↔
      ∃ cp ∈ db, cp.property_id = pid ∧ cp.user_id = uid ∧
        cp.payment_status = "completed" ∧
        (cp.expires_at = none ∨ ∃ e, cp.expires_at = some e ∧ now < e))
    ∧ (newPendingPayment env u).expires_at =
        some ((newPendingPayment env u).created_at + days 14)
    ∧ (has_paid_for_contact_access
        [{ newPendingPayment env u with payment_status := "completed" }]
        now env.propertyId u = true ↔ now < env.now + days 14) := by
  refine ⟨?_, rfl, ?_⟩
  · simp only [has_paid_for_contact_access, List.any_eq_true, Bool.and_eq_true, beq_iff_eq]
    constructor
    · rintro ⟨cp, hm, ⟨⟨h1, h2⟩, h3⟩, h4⟩
      exact ⟨cp, hm, h1, h2, h3, (expiresOk_iff now cp).mp h4⟩
    · rintro ⟨cp, hm, h1, h2, h3, h4⟩
      exact ⟨cp, hm, ⟨⟨h1, h2⟩, h3⟩, (expiresOk_iff now cp).mpr h4⟩
  · simp [has_paid_for_contact_access, newPendingPayment, expiresOk]

/-! ### C2 -/

/-- C2 counterexample: the callback cexFailedCallback matches cexPayment
and its metadata contains the item MpesaReceiptNumber with value
RCPT123, yet the handler leaves transaction_id empty, because the
metadata is read only on ResultCode 0. -/
theorem C2_receipt_ignored_on_failure :
    receiptNumber cexFailedCallback = some "RCPT123" ∧
    (mpesaCallback [cexPayment] 99 cexFailedCallback).1 =
      [{ cexPayment with updated_at := 99, payment_status := "failed" }] ∧
    ({ cexPayment with updated_at := 99, payment_status := "failed" } :
      ContactPayment).transaction_id = none := by
  refine ⟨by decide, by decide, by decide⟩

/-- C2 amended: for a callback matching exactly one persisted record, the
written payment_status is completed exactly when ResultCode is 0 and is
failed for every non-zero ResultCode; the MpesaReceiptNumber value is
stored as transaction_id only when ResultCode is 0 and the value is
truthy, and transaction_id is left unchanged otherwise. -/
theorem C2_callback_reconciliation (db : List ContactPayment) (now : Int)
    (cb : StkCallback) (p : ContactPayment)
    (hp : locatePayments db cb.checkoutRequestID = [p]) :
    (mpesaCallback db now cb).2 = 200
    ∧ ((callbackUpdate now cb p).payment_status = "completed" ↔ cb.resultCode = 0)
    ∧ (cb.resultCode ≠ 0 → (callbackUpdate now cb p).payment_status = "failed")
    ∧ (∀ v, cb.resultCode = 0 → receiptNumber cb = some v → v ≠ "" →
        (callbackUpdate now cb p).transaction_id = some v)
    ∧ (∀ v, cb.resultCode = 0 → receiptNumber cb = some v → v = "" →
        (callbackUpdate now cb p).transaction_id = p.transaction_id)
    ∧ (cb.resultCode ≠ 0 → (callbackUpdate now cb p).transaction_id = p.transaction_id)
    ∧ (receiptNumber cb = none → (callbackUpdate now cb p).transaction_id = p.transaction_id)
    ∧ callbackUpdate now cb p ∈ (mpesaCallback db now cb).1 := by
  obtain ⟨h200, hmem⟩ := callbackUpdate_mem db now cb p hp
  refine ⟨h200, ?_, ?_, ?_, ?_, ?_, ?_, hmem⟩
  · rw [callbackUpdate_status]
    by_cases h : cb.resultCode = 0 <;> simp [h]
  · intro h; rw [callbackUpdate_status, if_neg h]
  · intro v h0 hr hv
    simp [callbackUpdate, h0, hr, hv]
  · intro v h0 hr hv
    simp [callbackUpdate, h0, hr, hv]
  · intro h; simp [callbackUpdate, h]
  · intro hr
    by_cases h : cb.resultCode = 0 <;> simp [callbackUpdate, h, hr]

/-- C2 witness: a successful callback with receipt RCPT456 matching
cexPayment marks it completed and stores the receipt. -/
theorem C2_callback_reconciliation_witness :
    ((callbackUpdate 77 exSuccessCallback cexPayment).payment_status = "completed") ∧
    ((callbackUpdate 77 exSuccessCallback cexPayment).transaction_id = some "RCPT456") ∧
    callbackUpdate 77 exSuccessCallback cexPayment ∈
      (mpesaCallback [cexPayment] 77 exSuccessCallback).1 := by
  have h := C2_callback_reconciliation [cexPayment] 77 exSuccessCallback cexPayment (by decide)
  exact ⟨h.2.1.mpr (by decide), h.2.2.2.1 "RCPT456" (by decide) (by decide) (by decide),
    h.2.2.2.2.2.2.2⟩

/-! ### C3 -/

/-- Updating rows by an id that occurs nowhere in the table leaves the
table unchanged. -/
theorem map_update_of_fresh (l : List ContactPayment) (n : Nat)
    (g : ContactPayment → ContactPayment) (h : ∀ cp ∈ l, cp.id ≠ n) :
    l.map (fun cp => if cp.id == n then g cp else cp) = l := by
  induction l with
  | nil => rfl
  | cons a t ih =>
    have ha : ¬ ((a.id == n) = true) := by
      simpa using h a (List.mem_cons_self a t)
    rw [List.map_cons, if_neg ha, ih fun cp hcp => h cp (List.mem_cons_of_mem a hcp)]

/-- C3: a run of mpesa-payment that passes all checks up to the STK push
inserts a pending row before the push is sent; on ResponseCode 0 the row
receives the CheckoutRequestID and stays pending, on any other
ResponseCode the same row is marked failed. -/
theorem C3_linear_payment_flow (db : List ContactPayment) (env : PaymentEnv)
    (uid : String)
    (hauth : env.authHeader ≠ none)
    (huser : env.authedUser = some uid)
    (hfields : env.propertyId ≠ "" ∧ env.amount ≠ 0 ∧ env.phoneNumber ≠ "")
    (hphone : kenyanPhoneMatch (cleanPhone env.phoneNumber) = true)
    (hkey : env.consumerKey ≠ "") (hsecret : env.consumerSecret ≠ "")
    (hmauth : env.mpesaAuthOk = true) (hins : env.insertOk = true)
    (hshort : env.shortcode ≠ "") (hpass : env.passkey ≠ "")
    (hfresh : ∀ cp ∈ db, cp.id ≠ env.newId) :
    (newPendingPayment env uid).payment_status = "pending"
    ∧ (mpesaPayment db env).events.take 2 =
        [.insertPending (newPendingPayment env uid),
         .stkPush (newPendingPayment env uid).phone_number env.amount]
    ∧ (env.stk.responseCode = "0" →
        (mpesaPayment db env).status = 200
        ∧ (mpesaPayment db env).db =
            db ++ [{ newPendingPayment env uid with
                      checkout_request_id := some env.stk.checkoutRequestID }]
        ∧ ({ newPendingPayment env uid with
              checkout_request_id := some env.stk.checkoutRequestID } :
            ContactPayment).payment_status = "pending")
    ∧ (env.stk.responseCode ≠ "0" →
        (mpesaPayment db env).db =
          db ++ [{ newPendingPayment env uid with payment_status := "failed" }]
        ∧ (mpesaPayment db env).events =
            [.insertPending (newPendingPayment env uid),
             .stkPush (newPendingPayment env uid).phone_number env.amount,
             .updateFailed env.newId]) := by
  obtain ⟨hf1, hf2, hf3⟩ := hfields
  obtain ⟨tok, htok⟩ := Option.ne_none_iff_exists'.mp hauth
  have hrow : ∀ (g : ContactPayment → ContactPayment),
      (db ++ [newPendingPayment env uid]).map
        (fun cp => if cp.id == (newPendingPayment env uid).id then g cp else cp) =
        db ++ [g (newPendingPayment env uid)] := by
    intro g
    rw [List.map_append, map_update_of_fresh db _ g (by simpa [newPendingPayment] using hfresh)]
    simp
  have hbody : mpesaPayment db env =
      (if env.stk.responseCode = "0" then
        { status := 200, success := true, error := none,
          message := some env.stk.customerMessage,
          checkoutRequestId := some env.stk.checkoutRequestID,
          paymentId := some env.newId,
          db := db ++ [{ newPendingPayment env uid with
                          checkout_request_id := some env.stk.checkoutRequestID }],
          events := [.insertPending (newPendingPayment env uid),
            .stkPush (newPendingPayment env uid).phone_number env.amount,
            .updateCheckoutRequestId (newPendingPayment env uid).id
              env.stk.checkoutRequestID] }
      else
        errResponse
          (db ++ [{ newPendingPayment env uid with payment_status := "failed" }])
          [.insertPending (newPendingPayment env uid),
            .stkPush (newPendingPayment env uid).phone_number env.amount,
            .updateFailed (newPendingPayment env uid).id]
          (if env.stk.responseDescription = "" then "STK Push failed"
           else env.stk.responseDescription)) := by
    rw [mpesaPayment, htok]
    simp only [huser]
    rw [if_neg (by simp [hf1, hf2, hf3])]
    rw [if_neg (by simp [hphone])]
    rw [if_neg (by simp [hkey, hsecret])]
    rw [if_neg (by simp [hmauth])]
    rw [if_neg (by simp [hins])]
    rw [if_neg (by simp [hshort, hpass])]
    by_cases hrc : env.stk.responseCode = "0"
    · rw [if_pos hrc, if_pos hrc, hrow]
    · rw [if_neg hrc, if_neg hrc, hrow]
  refine ⟨rfl, ?_, ?_, ?_⟩
  · rw [hbody]
    by_cases hrc : env.stk.responseCode = "0" <;> simp [hrc, errResponse, newPendingPayment]
  · intro hrc
    rw [hbody, if_pos hrc]
    exact ⟨rfl, rfl, rfl⟩
  · intro hrc
    rw [hbody, if_neg hrc]
    refine ⟨rfl, ?_⟩
    simp [errResponse, newPendingPayment]

/-- C3 witness: with an accepted STK push, the run on exPayEnv appends
exactly one pending row carrying the returned CheckoutRequestID. -/
theorem C3_linear_payment_flow_witness :
    (newPendingPayment exPayEnv "user-1").payment_status = "pending" ∧
    (mpesaPayment [] exPayEnv).status = 200 ∧
    (mpesaPayment [] exPayEnv).db =
      [{ newPendingPayment exPayEnv "user-1" with
          checkout_request_id := some "ws_CO_0002" }] := by
  have h := C3_linear_payment_flow [] exPayEnv "user-1"
    (by decide) rfl ⟨by decide, by decide, by decide⟩ (by decide)
    (by decide) (by decide) rfl rfl (by decide) (by decide)
    (by intro cp hcp; simp at hcp)
  have hs := h.2.2.1 rfl
  exact ⟨h.1, hs.1, by simpa using hs.2.1⟩

/-! ### C4 -/

/-- Positional pairing of a mapped list with its source determines each
output element as the image of its input element. -/
theorem zip_map_self {α β : Type} (f : α → β) (l : List α) (q : β) (p : α)
    (h : (q, p) ∈ (l.map f).zip l) : q = f p := by
  induction l with
  | nil => simp at h
  | cons a t ih =>
    simp only [List.map_cons, List.zip_cons_cons, List.mem_cons] at h
    rcases h with h | h
    · simp only [Prod.mk.injEq] at h
      rw [h.1, h.2]
    · exact ih h

/-- C4: in the output of get_properties_with_conditional_phone, a
non-NULL phone implies the caller is authenticated with a completed
unexpired payment for that property (and the phone is the stored one);
any other caller gets NULL there; every other column is returned
unchanged; and any two callers receive identical rows once the phone
column is erased. -/
theorem C4_paid_contact_gating (props : List PropertyRow)
    (db db2 : List ContactPayment) (now : Int) (auth auth2 : Option String)
    (q p : PropertyRow)
    (hz : (q, p) ∈ (get_properties_with_conditional_phone props db auth now).zip props) :
    (q.phone ≠ none →
      ∃ uid, auth = some uid ∧ paidExists db now uid p.id = true ∧ q.phone = p.phone)
    ∧ (auth = none → q.phone = none)
    ∧ (∀ uid, auth = some uid → paidExists db now uid p.id = false → q.phone = none)
    ∧ erasePhone q = erasePhone p
    ∧ (get_properties_with_conditional_phone props db auth now).map erasePhone =
        (get_properties_with_conditional_phone props db2 auth2 now).map erasePhone := by
  have hq : q = { p with phone := conditionalPhone db now auth p } :=
    zip_map_self _ props q p hz
  have hqp : q.phone = conditionalPhone db now auth p := by rw [hq]
  refine ⟨?_, ?_, ?_, ?_, ?_⟩
  · intro hph
    rw [hqp] at hph
    cases hA : auth with
    | none => rw [hA] at hph; exact absurd rfl hph
    | some uid =>
      rw [hA] at hph
      by_cases hpaid : paidExists db now uid p.id = true
      · refine ⟨uid, rfl, hpaid, ?_⟩
        rw [hqp, hA]
        simp [conditionalPhone, hpaid]
      · simp [conditionalPhone, hpaid] at hph
  · intro hA; rw [hqp, hA]; rfl
  · intro uid hA hpaid
    rw [hqp, hA]
    simp [conditionalPhone, hpaid]
  · rw [hq]; rfl
  · simp only [get_properties_with_conditional_phone]
    rw [List.map_map, List.map_map]
    rfl

/-- C4 witness: an authenticated caller without a completed payment gets
the prop-1 row with a NULL phone but all other columns intact. -/
theorem C4_paid_contact_gating_witness :
    ({ exProp with phone := none } : PropertyRow).phone = none ∧
    erasePhone ({ exProp with phone := none } : PropertyRow) = erasePhone exProp := by
  have h := C4_paid_contact_gating [exProp] [] [exPaidRow] 0 (some "user-2") (some "user-1")
    { exProp with phone := none } exProp (by decide)
  exact ⟨h.2.2.1 "user-2" rfl (by decide), h.2.2.2.1⟩

/-! ### C5 -/

/-- C5: the callback locates its payment record exactly by equality of
checkout_request_id with the CheckoutRequestID of the callback, and when
no record matches it answers 404 leaving every record unchanged. -/
theorem C5_sole_correlation_key (db : List ContactPayment) (now : Int)
    (cb : StkCallback) (cp : ContactPayment) (hcp : cp ∈ db) :
    (cp ∈ locatePayments db cb.checkoutRequestID ↔
      cp.checkout_request_id = some cb.checkoutRequestID)
    ∧ (locatePayments db cb.checkoutRequestID = [] →
        mpesaCallback db now cb = (db, 404)) := by
  constructor
  · simp [locatePayments, List.mem_filter, hcp]
  · intro h; simp [mpesaCallback, h]

/-- C5 witness: a callback with an unknown CheckoutRequestID does not
locate cexPayment and the handler returns the table unchanged with 404. -/
theorem C5_sole_correlation_key_witness :
    cexPayment.checkout_request_id ≠ some cexUnmatchedCallback.checkoutRequestID ∧
    mpesaCallback [cexPayment] 55 cexUnmatchedCallback = ([cexPayment], 404) := by
  have h := C5_sole_correlation_key [cexPayment] 55 cexUnmatchedCallback cexPayment
    (List.mem_singleton_self cexPayment)
  exact ⟨by decide, h.2 (by decide)⟩

/-! ### C6 -/

/-- A record that every read observes as pending makes the client poll
time out after its 60 attempts. -/
theorem pollAux_pending (statusAt : Nat → String) (h : ∀ n, statusAt n = "pending") :
    ∀ fuel attempt, pollAux statusAt attempt fuel = .timeout := by
  intro fuel
  induction fuel with
  | zero => intro attempt; rfl
  | succ k ih =>
    intro attempt
    simp only [pollAux, h attempt]
    rw [if_neg (by decide), if_neg (by decide)]
    split
    · exact ih (attempt + 1)
    · rfl

/-- C6 counterexample: cexPendingInWindow is a pending payment, and one
whose expires_at even lies inside the reminder window, yet the only
scheduled job of the repository selects nothing for it and sends no
reminder: the job reads only completed payments and never re-checks a
pending record. -/
theorem C6_no_cron_recheck_of_pending :
    cexPendingInWindow.payment_status = "pending" ∧
    inReminderWindow 0 cexPendingInWindow = true ∧
    reminderQuery [cexPendingInWindow] 0 = [] ∧
    sendReminders [cexPendingInWindow] [exProfile] [exProp] 0 = [] := by decide

/-- C6 amended: after a payment is written as pending, its resolution is
driven by the asynchronous provider callback writing completed or failed
to the record, observed by the initiating client polling the record up to
60 times and stopping at the first completed or failed status; the one
scheduled job (expiry reminders) selects only completed payments. -/
theorem C6_resolution_by_callback_not_cron (db : List ContactPayment) (now : Int)
    (cb : StkCallback) (p : ContactPayment) (statusAt : Nat → String)
    (hp : locatePayments db cb.checkoutRequestID = [p]) :
    (∀ cp ∈ reminderQuery db now, cp.payment_status = "completed")
    ∧ (callbackUpdate now cb p).payment_status =
        (if cb.resultCode = 0 then "completed" else "failed")
    ∧ callbackUpdate now cb p ∈ (mpesaCallback db now cb).1
    ∧ (statusAt 1 = "completed" → pollPaymentStatus statusAt = .success)
    ∧ (statusAt 1 = "failed" → pollPaymentStatus statusAt = .failed)
    ∧ ((∀ n, statusAt n = "pending") → pollPaymentStatus statusAt = .timeout) := by
  refine ⟨?_, callbackUpdate_status now cb p, (callbackUpdate_mem db now cb p hp).2,
    ?_, ?_, ?_⟩
  · intro cp hm
    simp only [reminderQuery] at hm
    have hx := (List.mem_filter.mp hm).2
    simp only [Bool.and_eq_true, beq_iff_eq] at hx
    exact hx.1
  · intro h; simp [pollPaymentStatus, pollAux, h]
  · intro h; simp [pollPaymentStatus, pollAux, h]
  · intro h; exact pollAux_pending statusAt h 60 1

/-- C6 witness: the successful callback resolves cexPayment to completed
and the polling client observes it. -/
theorem C6_resolution_witness :
    (callbackUpdate 88 exSuccessCallback cexPayment).payment_status = "completed" ∧
    pollPaymentStatus (fun _ => "completed") = .success := by
  have h := C6_resolution_by_callback_not_cron [cexPayment] 88 exSuccessCallback
    cexPayment (fun _ => "completed") (by decide)
  exact ⟨by rw [h.2.1]; decide, h.2.2.2.1 rfl⟩

/-! ### C7 -/

/-- The window filter holds exactly for a non-NULL expires_at between the
window bounds. -/
theorem inReminderWindow_iff (now : Int) (cp : ContactPayment) :
    inReminderWindow now cp = true ↔
      ∃ e, cp.expires_at = some e ∧ twoDaysStart now ≤ e ∧ e ≤ twoDaysEnd now := by
  cases h : cp.expires_at with
  | none => simp [inReminderWindow, h]
  | some e => simp [inReminderWindow, h]

/-- The reminder window is exactly the local calendar day two days ahead:
its bounds are 00:00:00.000 and 23:59:59.999 of that day. -/
theorem window_is_calendar_day (now e : Int) :
    (twoDaysStart now ≤ e ∧ e ≤ twoDaysEnd now) ↔
      e / dayMs = (now + 2 * dayMs) / dayMs := by
  simp only [twoDaysStart, twoDaysEnd, dayMs]
  omega

/-- A filterMap whose function succeeds exactly where a predicate holds
keeps as many elements as the filter by that predicate. -/
theorem length_filterMap_eq_length_filter {α β : Type} (f : α → Option β)
    (pr : α → Bool) (h : ∀ a, (f a).isSome = pr a) :
    ∀ l : List α, (l.filterMap f).length = (l.filter pr).length := by
  intro l
  induction l with
  | nil => rfl
  | cons a t ih =>
    cases hf : f a with
    | none =>
      have hp : pr a = false := by rw [← h a, hf]; rfl
      simp [List.filterMap_cons, List.filter_cons, hf, hp, ih]
    | some b =>
      have hp : pr a = true := by rw [← h a, hf]; rfl
      simp [List.filterMap_cons, List.filter_cons, hf, hp, ih]

/-- C7: the reminder job selects exactly the completed payments whose
expires_at lies in the calendar day two days from now, bounded by
00:00:00.000 and 23:59:59.999 of that day, and sends exactly one
reminder per selected payment having both a profile email and an
existing property, skipping the rest. -/
theorem C7_expiry_reminder_selection (db : List ContactPayment)
    (profiles : List Profile) (props : List PropertyRow) (now : Int)
    (cp : ContactPayment) (hcp : cp ∈ db) :
    (cp ∈ reminderQuery db now ↔
      cp.payment_status = "completed" ∧
        ∃ e, cp.expires_at = some e ∧ twoDaysStart now ≤ e ∧ e ≤ twoDaysEnd now)
    ∧ (∀ e : Int, (twoDaysStart now ≤ e ∧ e ≤ twoDaysEnd now) ↔
        e / dayMs = (now + 2 * dayMs) / dayMs)
    ∧ (sendReminders db profiles props now).length =
        ((reminderQuery db now).filter fun c =>
          (profileEmail profiles c.user_id).isSome &&
            (findProperty props c.property_id).isSome).length := by
  refine ⟨?_, fun e => window_is_calendar_day now e, ?_⟩
  · simp only [reminderQuery, List.mem_filter, hcp, true_and, Bool.and_eq_true, beq_iff_eq]
    constructor
    · rintro ⟨h1, h2⟩
      exact ⟨h1, (inReminderWindow_iff now cp).mp h2⟩
    · rintro ⟨h1, h2⟩
      exact ⟨h1, (inReminderWindow_iff now cp).mpr h2⟩
  · simp only [sendReminders]
    apply length_filterMap_eq_length_filter
    intro a
    cases hpe : profileEmail profiles a.user_id with
    | none => simp [hpe]
    | some e =>
      cases hfp : findProperty props a.property_id with
      | none => simp [hpe, hfp]
      | some pr => simp [hpe, hfp]

/-- C7 witness: exExpiringPayment is selected on day zero and yields
exactly one reminder. -/
theorem C7_expiry_reminder_selection_witness :
    exExpiringPayment ∈ reminderQuery [exExpiringPayment] 0 ∧
    (sendReminders [exExpiringPayment] [exProfile] [exProp] 0).length = 1 := by
  have h := C7_expiry_reminder_selection [exExpiringPayment] [exProfile] [exProp] 0
    exExpiringPayment (List.mem_singleton_self _)
  refine ⟨h.1.mpr ⟨rfl, days 2 + 5000, rfl, by decide, by decide⟩, ?_⟩
  rw [h.2.2]
  decide

/-! ### C9 -/

/-- C9: the code evaluated at the failing input 712345678.  Its digit
string matches the validation pattern (the 0 or 254 prefix is optional),
but the number forwarded to the provider is 25412345678: the leading 7
of the subscriber number is dropped, instead of producing 254712345678
as the 0-prefixed form of the same subscriber number does. -/
theorem C9_bare_subscriber_number_mangled :
    kenyanPhoneMatch (cleanPhone "712345678") = true ∧
    formatPhone (cleanPhone "712345678") = "25412345678" ∧
    formatPhone (cleanPhone "712345678") ≠ "254712345678" ∧
    formatPhone (cleanPhone "0712345678") = "254712345678" := by decide

/-! ### C10 -/

/-- C10: the status the callback writes is a function of the ResultCode
of the callback alone, never of the current status of the record, so a
later non-zero-ResultCode callback matching a completed payment
overwrites it to failed. -/
theorem C10_completed_not_terminal (db : List ContactPayment) (now : Int)
    (cb : StkCallback) (p : ContactPayment)
    (hp : locatePayments db cb.checkoutRequestID = [p])
    (_hdone : p.payment_status = "completed") (hrc : cb.resultCode ≠ 0) :
    (∀ (q : ContactPayment) (cb2 : StkCallback),
        (callbackUpdate now cb2 q).payment_status =
          if cb2.resultCode = 0 then "completed" else "failed")
    ∧ (callbackUpdate now cb p).payment_status = "failed"
    ∧ callbackUpdate now cb p ∈ (mpesaCallback db now cb).1 := by
  refine ⟨fun q cb2 => callbackUpdate_status now cb2 q, ?_,
    (callbackUpdate_mem db now cb p hp).2⟩
  rw [callbackUpdate_status, if_neg hrc]

/-- C10 witness: the cancellation callback flips the completed
cexCompletedPayment back to failed. -/
theorem C10_completed_not_terminal_witness :
    (callbackUpdate 99 cexFailedCallback cexCompletedPayment).payment_status = "failed" ∧
    callbackUpdate 99 cexFailedCallback cexCompletedPayment ∈
      (mpesaCallback [cexCompletedPayment] 99 cexFailedCallback).1 := by
  have h := C10_completed_not_terminal [cexCompletedPayment] 99 cexFailedCallback
    cexCompletedPayment (by decide) (by decide) (by decide)
  exact ⟨h.2.1, h.2.2⟩

/-! ### C8 -/

/-- Every run of mpesa-payment sends at most one STK push, and every run
either succeeds with 200 or fails with 500, success false and an error
message. -/
theorem mpesaPayment_cases (db : List ContactPayment) (env : PaymentEnv) :
    ((mpesaPayment db env).events.countP isStkPush ≤ 1)
    ∧ ((mpesaPayment db env).status = 200 ∨
        ((mpesaPayment db env).status = 500 ∧ (mpesaPayment db env).success = false ∧
          (mpesaPayment db env).error ≠ none)) := by
  unfold mpesaPayment
  cases env.authHeader with
  | none => simp [errResponse]
  | some tok =>
    cases env.authedUser with
    | none => simp [errResponse]
    | some uid =>
      dsimp only
      split
      · simp [errResponse]
      split
      · simp [errResponse]
      split
      · simp [errResponse]
      split
      · simp [errResponse]
      split
      · simp [errResponse]
      split
      · simp [errResponse, isStkPush, List.countP_cons, List.countP_nil]
      split
      · simp [isStkPush, List.countP_cons, List.countP_nil]
      · simp [errResponse, isStkPush, List.countP_cons, List.countP_nil]

/-- C8 counterexample: a non-zero STK ResponseCode whose
ResponseDescription is empty yields the fixed fallback message
STK Push failed, not the (empty) provider description. -/
theorem C8_empty_description_fallback :
    cexEmptyDescEnv.stk.responseCode ≠ "0" ∧
    cexEmptyDescEnv.stk.responseDescription = "" ∧
    (mpesaPayment [] cexEmptyDescEnv).status = 500 ∧
    (mpesaPayment [] cexEmptyDescEnv).error = some "STK Push failed" ∧
    (mpesaPayment [] cexEmptyDescEnv).error ≠
      some cexEmptyDescEnv.stk.responseDescription := by
  decide

/-- C8 amended: every failing run of mpesa-payment performs no retry (at
most one STK push is ever sent) and returns HTTP 500 with success false
and an error message; each listed failure category produces its fixed
message, and a non-zero STK ResponseCode surfaces the ResponseDescription
of the provider when it is non-empty, with the fallback STK Push failed
when it is empty. -/
theorem C8_error_surfacing_no_retry (db : List ContactPayment) (env : PaymentEnv) :
    ((mpesaPayment db env).events.countP isStkPush ≤ 1)
    ∧ ((mpesaPayment db env).status = 200 ∨
        ((mpesaPayment db env).status = 500 ∧ (mpesaPayment db env).success = false ∧
          (mpesaPayment db env).error ≠ none))
    ∧ (env.authHeader = none →
        mpesaPayment db env = errResponse db [] "No authorization header")
    ∧ (env.authHeader ≠ none → env.authedUser = none →
        mpesaPayment db env = errResponse db [] "User not authenticated")
    ∧ (env.authHeader ≠ none → env.authedUser ≠ none →
        (env.propertyId = "" ∨ env.amount = 0 ∨ env.phoneNumber = "") →
        mpesaPayment db env =
          errResponse db [] "Missing required fields: propertyId, amount, phoneNumber")
    ∧ (env.authHeader ≠ none → env.authedUser ≠ none →
        ¬ (env.propertyId = "" ∨ env.amount = 0 ∨ env.phoneNumber = "") →
        kenyanPhoneMatch (cleanPhone env.phoneNumber) = false →
        mpesaPayment db env =
          errResponse db [] "Invalid phone number format. Use format: 0712345678")
    ∧ (env.authHeader ≠ none → env.authedUser ≠ none →
        ¬ (env.propertyId = "" ∨ env.amount = 0 ∨ env.phoneNumber = "") →
        kenyanPhoneMatch (cleanPhone env.phoneNumber) = true →
        (env.consumerKey = "" ∨ env.consumerSecret = "") →
        mpesaPayment db env =
          errResponse db [] "M-Pesa credentials are not configured. Please contact support.")
    ∧ (env.authHeader ≠ none → env.authedUser ≠ none →
        ¬ (env.propertyId = "" ∨ env.amount = 0 ∨ env.phoneNumber = "") →
        kenyanPhoneMatch (cleanPhone env.phoneNumber) = true →
        ¬ (env.consumerKey = "" ∨ env.consumerSecret = "") →
        env.mpesaAuthOk = false →
        mpesaPayment db env =
          errResponse db []
            "M-Pesa authentication failed. Please verify API credentials are correct.")
    ∧ (env.authHeader ≠ none → env.authedUser ≠ none →
        ¬ (env.propertyId = "" ∨ env.amount = 0 ∨ env.phoneNumber = "") →
        kenyanPhoneMatch (cleanPhone env.phoneNumber) = true →
        ¬ (env.consumerKey = "" ∨ env.consumerSecret = "") →
        env.mpesaAuthOk = true → env.insertOk = true →
        env.shortcode ≠ "" → env.passkey ≠ "" →
        env.stk.responseCode ≠ "0" →
        ((mpesaPayment db env).status = 500 ∧ (mpesaPayment db env).success = false ∧
          (mpesaPayment db env).error =
            some (if env.stk.responseDescription = "" then "STK Push failed"
                  else env.stk.responseDescription))) := by
  refine ⟨(mpesaPayment_cases db env).1, (mpesaPayment_cases db env).2,
    ?_, ?_, ?_, ?_, ?_, ?_, ?_⟩
  · intro h
    rw [mpesaPayment, h]
  · intro h hU
    obtain ⟨tok, htok⟩ := Option.ne_none_iff_exists'.mp h
    rw [mpesaPayment, htok, hU]
  · intro h hU hF
    obtain ⟨tok, htok⟩ := Option.ne_none_iff_exists'.mp h
    obtain ⟨uid, huid⟩ := Option.ne_none_iff_exists'.mp hU
    rw [mpesaPayment, htok, huid]
    dsimp only
    rw [if_pos hF]
  · intro h hU hF hPh
    obtain ⟨tok, htok⟩ := Option.ne_none_iff_exists'.mp h
    obtain ⟨uid, huid⟩ := Option.ne_none_iff_exists'.mp hU
    rw [mpesaPayment, htok, huid]
    dsimp only
    rw [if_neg hF, if_pos (by simp [hPh])]
  · intro h hU hF hPh hC
    obtain ⟨tok, htok⟩ := Option.ne_none_iff_exists'.mp h
    obtain ⟨uid, huid⟩ := Option.ne_none_iff_exists'.mp hU
    rw [mpesaPayment, htok, huid]
    dsimp only
    rw [if_neg hF, if_neg (by simp [hPh]), if_pos hC]
  · intro h hU hF hPh hC hM
    obtain ⟨tok, htok⟩ := Option.ne_none_iff_exists'.mp h
    obtain ⟨uid, huid⟩ := Option.ne_none_iff_exists'.mp hU
    rw [mpesaPayment, htok, huid]
    dsimp only
    rw [if_neg hF, if_neg (by simp [hPh]), if_neg hC,
      if_pos (by simp [hM])]
  · intro h hU hF hPh hC hM hI hS hP hrc
    obtain ⟨tok, htok⟩ := Option.ne_none_iff_exists'.mp h
    obtain ⟨uid, huid⟩ := Option.ne_none_iff_exists'.mp hU
    rw [mpesaPayment, htok, huid]
    dsimp only
    rw [if_neg hF, if_neg (by simp [hPh]), if_neg hC,
      if_neg (by simp [hM]), if_neg (by simp [hI]), if_neg (by simp [hS, hP]),
      if_neg hrc]
    exact ⟨rfl, rfl, rfl⟩

/-- C8 witness: a rejected STK push with a non-empty description is
surfaced verbatim in a 500 response with success false. -/
theorem C8_error_surfacing_no_retry_witness :
    (mpesaPayment [] exRejectedEnv).status = 500 ∧
    (mpesaPayment [] exRejectedEnv).success = false ∧
    (mpesaPayment [] exRejectedEnv).error =
      some "The balance is insufficient for the transaction" := by
  have h := (C8_error_surfacing_no_retry [] exRejectedEnv).2.2.2.2.2.2.2.2
    (by decide) (by decide) (by decide) (by decide) (by decide) rfl rfl
    (by decide) (by decide) (by decide)
  exact ⟨h.1, h.2.1, by rw [h.2.2]; decide⟩

end EstateExplore
